import Mathlib

/-!
Verification of the monitoring-dashboard core (repository `monitorAi`).

The repository contains two near-identical implementations of the same Vue
component: `src/unnamed/part_000` (a single-file component, the richer and
later iteration: it has input validation, score clamping, a heuristic traffic
fallback and a stochastic device fallback) and `src/index.js` (an earlier
iteration lacking those refinements).  The specification describes the
behaviour of `part_000`, so the main embedding below follows
`src/unnamed/part_000`; `src/index.js` is embedded separately (prefix `Idx`)
where a claim distinguishes the two files.

Modelling conventions:
* JavaScript numbers are modelled as exact rationals (`ℚ`).  Every numeric
  comparison appearing in the source (0.6, 0.4, 85, 70, 100, 0.1, 0.5, 0.2, …)
  is far from any binary floating-point edge case, so exact arithmetic is a
  faithful shallow embedding.
* `Math.random()` draws are passed in explicitly, either as single rationals
  or as a stream `ℕ → ℚ`; theorems assume each draw lies in `[0, 1)` exactly
  as the JS contract guarantees.
* The TensorFlow.js models are opaque: the traffic model's scalar output is an
  uninterpreted function parameter (`score`), the image model's 3-class output
  is a triple of parameters, and "a tensor operation threw" is a boolean
  parameter corresponding to the `try`/`catch` structure of the source.
* Reactive state (`ref` fields read or written by the embedded functions) is
  collected in one record, `SysState`; each source function becomes a pure
  function from (environment, arguments, state) to (result, state).
* `new Date().toLocaleTimeString()` is an explicit `String` parameter `ts`.
-/

/-- Severity status used for both the device and the traffic field:
`'normal' | 'warning' | 'danger'` in the source. -/
inductive Status where
  | normal
  | warning
  | danger
deriving DecidableEq, Repr

/-- Log entry type: `'info' | 'warning' | 'danger'` in the source
(`addLog`'s `type` argument). -/
inductive LogType where
  | info
  | warning
  | danger
deriving DecidableEq, Repr

/-- One entry of the `logs` buffer: `{ message, type }` in the source
(`addLog` builds `message` from the timestamp and the raw text). -/
structure LogEntry where
  message : String
  type : LogType
deriving DecidableEq, Repr

/-- Embedding of `addLog` (src/unnamed/part_000 lines 48-58, src/index.js
lines 50-60) acting on the raw list: `unshift` a new entry built from the
timestamp and message, then `pop` (drop the last element) if the length
exceeds 100. -/
def addLogEntry (ts msg : String) (ty : LogType) (logs : List LogEntry) :
    List LogEntry :=
  let l := LogEntry.mk ("[" ++ ts ++ "] " ++ msg) ty :: logs
  if l.length > 100 then l.dropLast else l

/-- Reactive state of the `part_000` component: the `ref` fields touched by
the embedded functions, plus the nullability of the two model references and
the device canvas context (`trafficModel`, `imageModel`, `deviceCtx` are
`true` when the corresponding JS reference is non-null). -/
structure SysState where
  deviceStatus : Status
  trafficStatus : Status
  modelReady : Bool
  isMonitoring : Bool
  logs : List LogEntry
  modelLoadProgress : Nat
  selectedSpeed : Nat
  trafficModel : Bool
  imageModel : Bool
  deviceCtx : Bool
deriving DecidableEq, Repr

/-- `addLog` as a state update. -/
def addLogS (ts msg : String) (ty : LogType) (s : SysState) : SysState :=
  { s with logs := addLogEntry ts msg ty s.logs }

/-- Initial values of the component's `ref`s (src/unnamed/part_000
lines 6-12, models and canvas context still null). -/
def initState : SysState :=
  { deviceStatus := .normal
    trafficStatus := .normal
    modelReady := false
    isMonitoring := false
    logs := []
    modelLoadProgress := 0
    selectedSpeed := 2000
    trafficModel := false
    imageModel := false
    deviceCtx := false }

/-- Embedding of `stopMonitoring` (src/unnamed/part_000 lines 624-629): no-op
when not monitoring, otherwise clear the flag and log an Info entry. -/
def stopMonitoring (ts : String) (s : SysState) : SysState :=
  if s.isMonitoring = true then
    addLogS ts "监控任务已停止" .info { s with isMonitoring := false }
  else s

/-- Embedding of `resetSystem` (src/unnamed/part_000 lines 634-662): stop,
reset the status fields, readiness, logs, progress and speed selector, drop
both model references (dispose), then log a final Info entry.  Canvas
clearing has no counterpart in the state. -/
def resetSystem (tsStop tsReset : String) (s : SysState) : SysState :=
  let s1 := stopMonitoring tsStop s
  let s2 := { s1 with
    deviceStatus := Status.normal
    trafficStatus := Status.normal
    modelReady := false
    logs := ([] : List LogEntry)
    modelLoadProgress := 0
    selectedSpeed := 2000
    trafficModel := false
    imageModel := false }
  addLogS tsReset "系统已重置" .info s2

theorem stopMonitoring_isMonitoring (ts : String) (s : SysState) :
    (stopMonitoring ts s).isMonitoring = false := by
  unfold stopMonitoring
  split
  · rfl
  · rename_i h
    exact Bool.not_eq_true _ ▸ h

theorem stopMonitoring_fields (ts : String) (s : SysState) :
    (stopMonitoring ts s).deviceStatus = s.deviceStatus ∧
    (stopMonitoring ts s).trafficStatus = s.trafficStatus ∧
    (stopMonitoring ts s).modelReady = s.modelReady ∧
    (stopMonitoring ts s).selectedSpeed = s.selectedSpeed := by
  unfold stopMonitoring
  split <;> exact ⟨rfl, rfl, rfl, rfl⟩

/-- C1 (amended): `reset()` from any prior state yields `running = false`,
both statuses `Normal`, `progress = 0`, `ready = false`, and a log buffer
holding exactly one entry: the Info entry recording the reset (the buffer is
cleared and then `addLog('系统已重置', 'info')` runs, so it is not empty). -/
theorem resetSystem_spec (tsStop tsReset : String) (s : SysState) :
    (resetSystem tsStop tsReset s).isMonitoring = false ∧
    (resetSystem tsStop tsReset s).deviceStatus = Status.normal ∧
    (resetSystem tsStop tsReset s).trafficStatus = Status.normal ∧
    (resetSystem tsStop tsReset s).modelLoadProgress = 0 ∧
    (resetSystem tsStop tsReset s).modelReady = false ∧
    (resetSystem tsStop tsReset s).logs =
      [LogEntry.mk ("[" ++ tsReset ++ "] " ++ "系统已重置") .info] := by
  unfold resetSystem addLogS addLogEntry
  refine ⟨?_, rfl, rfl, rfl, rfl, ?_⟩
  · exact stopMonitoring_isMonitoring tsStop s
  · simp

/-- C1 counterexample: the claim "after `reset()` … the log buffer is empty"
fails on the concrete initial state: the buffer holds the reset Info entry
(length 1), because `resetSystem` logs `系统已重置` after clearing. -/
theorem resetSystem_logs_not_empty :
    (resetSystem "12:00:00" "12:00:01" initState).logs ≠ [] ∧
    (resetSystem "12:00:00" "12:00:01" initState).logs.length = 1 := by
  constructor
  · decide
  · rfl

/-- C3: the log buffer invariant of `addLog`.  If the buffer holds at most
100 entries before insertion, then after insertion it holds at most 100; the
new entry is at the head (newest-first); when the buffer is not yet full the
old entries are kept unchanged behind the new head; and inserting into a full
buffer of exactly 100 entries evicts exactly the oldest (last) entry. -/
theorem addLogEntry_spec (ts msg : String) (ty : LogType)
    (logs : List LogEntry) (h : logs.length ≤ 100) :
    (addLogEntry ts msg ty logs).length ≤ 100 ∧
    (addLogEntry ts msg ty logs).head? =
      some (LogEntry.mk ("[" ++ ts ++ "] " ++ msg) ty) ∧
    (logs.length < 100 → addLogEntry ts msg ty logs =
      LogEntry.mk ("[" ++ ts ++ "] " ++ msg) ty :: logs) ∧
    (logs.length = 100 → addLogEntry ts msg ty logs =
      LogEntry.mk ("[" ++ ts ++ "] " ++ msg) ty :: logs.dropLast) := by
  unfold addLogEntry
  rcases Nat.lt_or_ge logs.length 100 with hlt | hge
  · have hcond : ¬ (LogEntry.mk ("[" ++ ts ++ "] " ++ msg) ty :: logs).length > 100 := by
      simp only [List.length_cons]
      omega
    rw [if_neg hcond]
    exact ⟨by simp only [List.length_cons]; omega, rfl, fun _ => rfl,
      fun h100 => absurd h100 (Nat.ne_of_lt hlt)⟩
  · have h100 : logs.length = 100 := Nat.le_antisymm h hge
    have hne : logs ≠ [] := by
      intro hnil
      rw [hnil] at h100
      exact absurd h100 (by decide)
    have hcond : (LogEntry.mk ("[" ++ ts ++ "] " ++ msg) ty :: logs).length > 100 := by
      simp only [List.length_cons]
      omega
    rw [if_pos hcond, List.dropLast_cons_of_ne_nil hne]
    refine ⟨?_, rfl, fun hlt => absurd h100 (Nat.ne_of_lt hlt), fun _ => rfl⟩
    simp only [List.length_cons, List.length_dropLast]
    omega

/-- C3 witness: inserting into a concrete full buffer of 100 identical
entries keeps the length at 100, places the new entry at the head and evicts
exactly the oldest entry. -/
theorem addLogEntry_spec_witness :
    (List.replicate 100 (LogEntry.mk "old" .info)).length ≤ 100 ∧
    ((addLogEntry "t" "m" .info (List.replicate 100 (LogEntry.mk "old" .info))).length ≤ 100 ∧
     (addLogEntry "t" "m" .info (List.replicate 100 (LogEntry.mk "old" .info))).head? =
       some (LogEntry.mk ("[" ++ "t" ++ "] " ++ "m") .info) ∧
     ((List.replicate 100 (LogEntry.mk "old" .info)).length < 100 →
       addLogEntry "t" "m" .info (List.replicate 100 (LogEntry.mk "old" .info)) =
         LogEntry.mk ("[" ++ "t" ++ "] " ++ "m") .info ::
           List.replicate 100 (LogEntry.mk "old" .info)) ∧
     ((List.replicate 100 (LogEntry.mk "old" .info)).length = 100 →
       addLogEntry "t" "m" .info (List.replicate 100 (LogEntry.mk "old" .info)) =
         LogEntry.mk ("[" ++ "t" ++ "] " ++ "m") .info ::
           (List.replicate 100 (LogEntry.mk "old" .info)).dropLast)) :=
  ⟨by decide, addLogEntry_spec "t" "m" .info _ (by decide)⟩

/-- A JavaScript value as seen by `detectTrafficAnomaly`'s validation: a
finite number, `NaN`, `Infinity`, `-Infinity`, or any non-number value. -/
inductive JsVal where
  | num (q : ℚ)
  | nan
  | inf
  | negInf
  | nonNumber
deriving DecidableEq, Repr

/-- The validation predicate `typeof v !== 'number' || isNaN(v)` of
src/unnamed/part_000 line 436: `NaN` and non-number values fail it; finite
numbers and the two infinities are JS numbers with `isNaN` false, so they
pass. -/
def JsVal.isInvalidNumber : JsVal → Bool
  | .nan => true
  | .nonNumber => true
  | _ => false

/-- Spec-side notion (section 3, "TrafficSample"): a sample entry that is a
finite numeric value.  `Infinity` and `-Infinity` are numbers but not finite,
so they match the claim's "non-finite value" wording while passing the
source's `isNaN`-based validation. -/
def JsVal.isFiniteNumber : JsVal → Bool
  | .num _ => true
  | _ => false

/-- Rational content of a value; meaningful only for finite numbers (the only
entries the proved theorems feed to the opaque scoring function). -/
def JsVal.toQ : JsVal → ℚ
  | .num q => q
  | _ => 0

/-- Comparison `b < v` under JS number semantics for a NaN-free value:
`Infinity` exceeds every bound, `-Infinity` none.  For a NaN-free list,
`Math.max(...data) > b` holds exactly when some element satisfies this, which
is how the heuristic branch below renders the source's
`Math.max(...data) > 85` / `> 70` tests. -/
def jsGt (v : JsVal) (b : ℚ) : Bool :=
  match v with
  | .num q => decide (b < q)
  | .inf => true
  | _ => false

/-- Clamp of the model score, `Math.max(0, Math.min(1, value))`
(src/unnamed/part_000 line 454). -/
def clamp01 (v : ℚ) : ℚ := max 0 (min 1 v)

/-- Threshold classification of the clamped model score
(src/unnamed/part_000 lines 457-466): `> 0.6` Danger, `> 0.4` Warning,
otherwise Normal. -/
def trafficModelStatus (c : ℚ) : Status :=
  if c > 0.6 then .danger else if c > 0.4 then .warning else .normal

/-- Threshold classification of the heuristic fallback
(src/unnamed/part_000 lines 472-482): `max > 85` Danger, `max > 70` Warning,
otherwise Normal. -/
def trafficHeurStatus (m : ℚ) : Status :=
  if m > 85 then .danger else if m > 70 then .warning else .normal

/-- Maximum of a nonempty list given as head and tail, `Math.max(...)`. -/
def listMax (x : ℚ) (xs : List ℚ) : ℚ := xs.foldl max x

/-- Environment of one `detectTrafficAnomaly` call: the opaque traffic
model's scoring function (applied to the normalized sample), whether the
tensor pipeline throws (the inner `catch`), and the wall-clock string. -/
structure TrafficEnv where
  score : List ℚ → ℚ
  tensorError : Bool
  ts : String

/-- Embedding of `detectTrafficAnomaly` (src/unnamed/part_000 lines 425-488).
Returns the status result together with the updated state.  Branches, in
source order: null-model/not-ready guard (silent `'normal'`); length
validation (Warning log, `'normal'`); number validation (Warning log,
`'normal'`); tensor failure → heuristic fallback on `Math.max(...data)`
(Warning log, updates `trafficStatus`); otherwise the model path: normalize
by 100, score, clamp to `[0,1]`, threshold, update `trafficStatus`.  The
dynamic `${error.message}` parts of the log strings are dropped. -/
def detectTrafficAnomaly (env : TrafficEnv) (data : List JsVal) (s : SysState) :
    Status × SysState :=
  if s.trafficModel = false ∨ s.modelReady = false then (.normal, s)
  else if ¬ data.length = 10 then
    (.normal, addLogS env.ts "流量数据格式不正确: 应为长度为10的数组" .warning s)
  else if data.any JsVal.isInvalidNumber then
    (.normal, addLogS env.ts "流量数据包含无效数字" .warning s)
  else if env.tensorError = true then
    let s1 := addLogS env.ts "张量操作失败，使用备用检测逻辑" .warning s
    if data.any (fun v => jsGt v 85) then (.danger, { s1 with trafficStatus := .danger })
    else if data.any (fun v => jsGt v 70) then (.warning, { s1 with trafficStatus := .warning })
    else (.normal, { s1 with trafficStatus := .normal })
  else
    let c := clamp01 (env.score (data.map (fun v => v.toQ / 100)))
    if c > 0.6 then (.danger, { s with trafficStatus := .danger })
    else if c > 0.4 then (.warning, { s with trafficStatus := .warning })
    else (.normal, { s with trafficStatus := .normal })

/-- State with both models created, canvas context bound and readiness set:
the state from which the monitoring loop operates. -/
def readyState : SysState :=
  { initState with
    trafficModel := true
    imageModel := true
    deviceCtx := true
    modelReady := true }

/-- Concrete environment: tensor pipeline succeeds, model scores 0.5. -/
def envScoreHalf : TrafficEnv :=
  { score := fun _ => 0.5, tensorError := false, ts := "t" }

/-- Concrete environment: tensor pipeline succeeds, model scores 0. -/
def envScoreZero : TrafficEnv :=
  { score := fun _ => 0, tensorError := false, ts := "t" }

/-- Concrete environment: tensor pipeline fails (heuristic fallback runs). -/
def envTensorFail : TrafficEnv :=
  { score := fun _ => 0, tensorError := true, ts := "t" }

theorem listMax_lt_iff (xs : List ℚ) (x b : ℚ) :
    b < listMax x xs ↔ b < x ∨ ∃ q ∈ xs, b < q := by
  unfold listMax
  induction xs generalizing x with
  | nil => simp
  | cons y ys ih =>
    rw [List.foldl_cons, ih (max x y)]
    simp only [lt_max_iff, List.mem_cons]
    constructor
    · rintro ((h | h) | ⟨q, hq, hb⟩)
      · exact Or.inl h
      · exact Or.inr ⟨y, Or.inl rfl, h⟩
      · exact Or.inr ⟨q, Or.inr hq, hb⟩
    · rintro (h | ⟨q, rfl | hq, hb⟩)
      · exact Or.inl (Or.inl h)
      · exact Or.inl (Or.inr hb)
      · exact Or.inr ⟨q, hq, hb⟩

theorem any_jsGt_map_num (b q : ℚ) (qs : List ℚ) :
    ((q :: qs).map JsVal.num).any (fun v => jsGt v b) =
      decide (b < listMax q qs) := by
  have h1 : ((q :: qs).map JsVal.num).any (fun v => jsGt v b) = true ↔
      b < listMax q qs := by
    rw [List.any_eq_true, listMax_lt_iff]
    constructor
    · rintro ⟨v, hv, hgt⟩
      rw [List.mem_map] at hv
      obtain ⟨p, hp, rfl⟩ := hv
      rw [List.mem_cons] at hp
      have hlt : b < p := by
        simpa [jsGt] using hgt
      rcases hp with rfl | hp
      · exact Or.inl hlt
      · exact Or.inr ⟨p, hp, hlt⟩
    · rintro (h | ⟨p, hp, hlt⟩)
      · exact ⟨JsVal.num q, List.mem_map_of_mem _ (List.mem_cons_self q qs),
          by simpa [jsGt] using h⟩
      · exact ⟨JsVal.num p, List.mem_map_of_mem _ (List.mem_cons_of_mem q hp),
          by simpa [jsGt] using hlt⟩
  rcases Decidable.em (b < listMax q qs) with h | h
  · rw [decide_eq_true h, h1.mpr h]
  · rw [decide_eq_false h]
    cases hx : ((q :: qs).map JsVal.num).any (fun v => jsGt v b) with
    | false => rfl
    | true => exact absurd (h1.mp hx) h

theorem map_num_valid (qs : List ℚ) :
    (qs.map JsVal.num).any JsVal.isInvalidNumber = false := by
  rw [List.any_eq_false]
  intro v hv
  rw [List.mem_map] at hv
  obtain ⟨p, _, rfl⟩ := hv
  simp [JsVal.isInvalidNumber]

/-- C6: on a well-formed 10-element numeric sample with the tensor pipeline
succeeding, `detectTrafficAnomaly` feeds the model each value divided by 100,
clamps the scalar score to `[0,1]`, classifies it by the 0.6/0.4 thresholds,
returns that status and writes it to the live `trafficStatus` field (and
changes nothing else; in particular it appends no log entry). -/
theorem detectTrafficAnomaly_model_path (env : TrafficEnv) (s : SysState)
    (qs : List ℚ) (hm : s.trafficModel = true) (hr : s.modelReady = true)
    (hlen : qs.length = 10) (he : env.tensorError = false) :
    detectTrafficAnomaly env (qs.map JsVal.num) s =
      (trafficModelStatus (clamp01 (env.score (qs.map (fun q => q / 100)))),
       { s with trafficStatus :=
          trafficModelStatus (clamp01 (env.score (qs.map (fun q => q / 100)))) }) := by
  have hmap : (qs.map JsVal.num).map (fun v => v.toQ / 100) =
      qs.map (fun q => q / 100) := by
    rw [List.map_map]
    rfl
  simp only [detectTrafficAnomaly, hmap]
  rw [if_neg (by simp [hm, hr]), if_neg (by simp [hlen]),
    if_neg (by simp [map_num_valid]), if_neg (by simp [he])]
  by_cases h6 : clamp01 (env.score (qs.map (fun q => q / 100))) > 0.6
  · rw [if_pos h6]
    simp [trafficModelStatus, h6]
  · rw [if_neg h6]
    by_cases h4 : clamp01 (env.score (qs.map (fun q => q / 100))) > 0.4
    · rw [if_pos h4]
      simp [trafficModelStatus, h6, h4]
    · rw [if_neg h4]
      simp [trafficModelStatus, h6, h4]

/-- C6 witness: a concrete all-50 sample with a model scoring 0.5 lands in
the Warning band of the 0.6/0.4 thresholds and `trafficStatus` is set
accordingly. -/
theorem detectTrafficAnomaly_model_path_witness :
    readyState.trafficModel = true ∧
    detectTrafficAnomaly envScoreHalf ((List.replicate 10 (50 : ℚ)).map JsVal.num)
        readyState =
      (trafficModelStatus (clamp01 (envScoreHalf.score
          ((List.replicate 10 (50 : ℚ)).map (fun q => q / 100)))),
       { readyState with trafficStatus := trafficModelStatus (clamp01 (envScoreHalf.score
          ((List.replicate 10 (50 : ℚ)).map (fun q => q / 100)))) }) ∧
    trafficModelStatus (clamp01 (envScoreHalf.score
        ((List.replicate 10 (50 : ℚ)).map (fun q => q / 100)))) = Status.warning :=
  ⟨rfl,
   detectTrafficAnomaly_model_path envScoreHalf readyState _ rfl rfl (by decide) rfl,
   by norm_num [envScoreHalf, trafficModelStatus, clamp01, min_def, max_def]⟩

/-- C7: whenever the tensor pipeline of the primary path fails, the heuristic
fallback classifies by `Math.max(...data)` with the 85/70 thresholds, writes
the result to the live `trafficStatus` field, and appends exactly one
Warning-level log entry. -/
theorem detectTrafficAnomaly_heuristic (env : TrafficEnv) (s : SysState)
    (q : ℚ) (qs : List ℚ) (hm : s.trafficModel = true) (hr : s.modelReady = true)
    (hlen : (q :: qs).length = 10) (ht : env.tensorError = true) :
    detectTrafficAnomaly env ((q :: qs).map JsVal.num) s =
      (trafficHeurStatus (listMax q qs),
       { s with
         trafficStatus := trafficHeurStatus (listMax q qs)
         logs := addLogEntry env.ts "张量操作失败，使用备用检测逻辑" .warning s.logs }) := by
  have hlen' : ((q :: qs).map JsVal.num).length = 10 := by
    rw [List.length_map]
    exact hlen
  simp only [detectTrafficAnomaly, addLogS]
  rw [if_neg (by simp [hm, hr]), if_neg (not_not_intro hlen'),
    if_neg (by simp [map_num_valid, JsVal.isInvalidNumber]), if_pos (by simp [ht])]
  simp only [any_jsGt_map_num, decide_eq_true_eq]
  by_cases h85 : (85 : ℚ) < listMax q qs
  · rw [if_pos h85]
    simp [trafficHeurStatus, h85]
  · rw [if_neg h85]
    by_cases h70 : (70 : ℚ) < listMax q qs
    · rw [if_pos h70]
      simp [trafficHeurStatus, h85, h70]
    · rw [if_neg h70]
      simp [trafficHeurStatus, h85, h70]

/-- C7 witness: with the tensor failure forced and the model ready, a sample
with maximum 90 yields Danger, one with maximum 75 yields Warning, and one
with maximum 50 yields Normal. -/
theorem detectTrafficAnomaly_heuristic_witness :
    (detectTrafficAnomaly envTensorFail
      (((90 : ℚ) :: List.replicate 9 (50 : ℚ)).map JsVal.num) readyState).1 =
        Status.danger ∧
    (detectTrafficAnomaly envTensorFail
      (((75 : ℚ) :: List.replicate 9 (50 : ℚ)).map JsVal.num) readyState).1 =
        Status.warning ∧
    (detectTrafficAnomaly envTensorFail
      (((50 : ℚ) :: List.replicate 9 (50 : ℚ)).map JsVal.num) readyState).1 =
        Status.normal := by
  refine ⟨?_, ?_, ?_⟩
  · rw [detectTrafficAnomaly_heuristic envTensorFail readyState 90 _ rfl rfl (by decide) rfl]
    decide
  · rw [detectTrafficAnomaly_heuristic envTensorFail readyState 75 _ rfl rfl (by decide) rfl]
    decide
  · rw [detectTrafficAnomaly_heuristic envTensorFail readyState 50 _ rfl rfl (by decide) rfl]
    decide

/-- C2 (amended): with the model loaded and ready, a sample that is not a
list of exactly 10 numeric non-NaN entries (wrong length, non-number entry,
or NaN entry) makes `detectTrafficAnomaly` return Normal, append exactly one
Warning-level log entry, and change nothing else; no error reaches the
caller.  Non-finite numbers other than NaN (`Infinity`, `-Infinity`) pass
the source's `isNaN`-based validation and take the primary path instead. -/
theorem detectTrafficAnomaly_malformed (env : TrafficEnv) (s : SysState)
    (data : List JsVal) (hm : s.trafficModel = true) (hr : s.modelReady = true)
    (hbad : data.length ≠ 10 ∨ data.any JsVal.isInvalidNumber = true) :
    detectTrafficAnomaly env data s =
      (Status.normal,
       addLogS env.ts (if data.length ≠ 10 then "流量数据格式不正确: 应为长度为10的数组"
         else "流量数据包含无效数字") .warning s) := by
  simp only [detectTrafficAnomaly]
  rw [if_neg (by simp [hm, hr])]
  rcases Decidable.em (data.length = 10) with hlen | hlen
  · have hinv : data.any JsVal.isInvalidNumber = true := by
      rcases hbad with hb | hb
      · exact absurd hlen hb
      · exact hb
    rw [if_neg (not_not_intro hlen), if_pos hinv, if_neg (not_not_intro hlen)]
  · rw [if_pos hlen, if_pos hlen]

/-- C2 witness: a 9-element sample (wrong length) with the model ready
returns Normal and appends exactly one Warning entry. -/
theorem detectTrafficAnomaly_malformed_witness :
    readyState.modelReady = true ∧
    detectTrafficAnomaly envScoreZero (List.replicate 9 (JsVal.num 50)) readyState =
      (Status.normal,
       addLogS envScoreZero.ts (if (List.replicate 9 (JsVal.num 50)).length ≠ 10 then
         "流量数据格式不正确: 应为长度为10的数组" else "流量数据包含无效数字")
         .warning readyState) :=
  ⟨rfl, detectTrafficAnomaly_malformed envScoreZero readyState _ rfl rfl
    (Or.inl (by decide))⟩

/-- C2 counterexample: a 10-element sample in which one entry is `Infinity`
does not consist of 10 finite numeric entries, yet it passes the
`isNaN`-based validation: `detectTrafficAnomaly` takes the primary path and
appends no Warning log entry at all, where the claim requires exactly one. -/
theorem detectTrafficAnomaly_infinity_counterexample :
    JsVal.inf ∈ List.replicate 9 (JsVal.num 50) ++ [JsVal.inf] ∧
    (List.replicate 9 (JsVal.num 50) ++ [JsVal.inf]).length = 10 ∧
    JsVal.inf.isFiniteNumber = false ∧
    (detectTrafficAnomaly envScoreZero
      (List.replicate 9 (JsVal.num 50) ++ [JsVal.inf]) readyState).2.logs =
      readyState.logs := by
  refine ⟨by decide, by decide, rfl, ?_⟩
  simp only [detectTrafficAnomaly]
  rw [if_neg (by decide), if_neg (by decide), if_neg (by decide), if_neg (by decide)]
  split
  · rfl
  · split
    · rfl
    · rfl

/-- One iteration of the `generateTrafficData` loop (src/unnamed/part_000
lines 400-415), consuming draws from the random stream starting at index `k`
and returning the produced point together with the next unused index.  Draws,
in source order: noise, anomaly trigger, severity choice, severity amount
(the last two only when the trigger fires); the value is clamped above at 100
only inside the anomaly branch. -/
def genPoint (rand : ℕ → ℚ) (base : ℚ) (k : ℕ) : ℚ × ℕ :=
  let value := base + rand k * 10 - 5
  if rand (k + 1) < 0.1 then
    let severity := if rand (k + 2) < 0.5 then 25 + rand (k + 3) * 20
      else 50 + rand (k + 3) * 40
    (if value + severity > 100 then 100 else value + severity, k + 4)
  else (value, k + 2)

/-- The `for` loop of `generateTrafficData`: produce `n` points starting at
stream index `k`. -/
def genPoints (rand : ℕ → ℚ) (base : ℚ) : ℕ → ℕ → List ℚ
  | 0, _ => []
  | n + 1, k =>
    (genPoint rand base k).1 :: genPoints rand base n (genPoint rand base k).2

/-- Embedding of `generateTrafficData` (src/unnamed/part_000 lines 395-418):
baseline `30 + Math.random() * 15`, then 10 points. -/
def generateTrafficData (rand : ℕ → ℚ) : List ℚ :=
  genPoints rand (30 + rand 0 * 15) 10 1

theorem clampTop_bounds (E : ℚ) (h25 : 25 ≤ E) :
    25 ≤ (if E > 100 then (100 : ℚ) else E) ∧
    (if E > 100 then (100 : ℚ) else E) ≤ 100 := by
  split
  · exact ⟨by norm_num, le_refl 100⟩
  · rename_i h
    exact ⟨h25, not_lt.mp h⟩

theorem genPoint_bounds (rand : ℕ → ℚ) (base : ℚ) (k : ℕ)
    (hr : ∀ m, 0 ≤ rand m ∧ rand m < 1) (hb0 : 30 ≤ base) (hb1 : base < 45) :
    25 ≤ (genPoint rand base k).1 ∧ (genPoint rand base k).1 ≤ 100 := by
  obtain ⟨h0a, h0b⟩ := hr k
  obtain ⟨h3a, h3b⟩ := hr (k + 3)
  simp only [genPoint]
  split
  · rename_i hc1
    have hE : 25 ≤ base + rand k * 10 - 5 +
        (if rand (k + 2) < 0.5 then 25 + rand (k + 3) * 20
         else 50 + rand (k + 3) * 40) := by
      split
      · linarith
      · linarith
    have h := clampTop_bounds _ hE
    exact ⟨h.1, h.2⟩
  · refine ⟨?_, ?_⟩
    · show 25 ≤ base + rand k * 10 - 5
      linarith
    · show base + rand k * 10 - 5 ≤ 100
      linarith

theorem genPoints_length (rand : ℕ → ℚ) (base : ℚ) :
    ∀ n k, (genPoints rand base n k).length = n := by
  intro n
  induction n with
  | zero => intro k; rfl
  | succ n ih =>
    intro k
    simp only [genPoints, List.length_cons, ih]

theorem genPoints_mem_bounds (rand : ℕ → ℚ) (base : ℚ)
    (hr : ∀ m, 0 ≤ rand m ∧ rand m < 1) (hb0 : 30 ≤ base) (hb1 : base < 45) :
    ∀ n k v, v ∈ genPoints rand base n k → 25 ≤ v ∧ v ≤ 100 := by
  intro n
  induction n with
  | zero =>
    intro k v hv
    simp [genPoints] at hv
  | succ n ih =>
    intro k v hv
    simp only [genPoints, List.mem_cons] at hv
    rcases hv with rfl | hv
    · exact genPoint_bounds rand base k hr hb0 hb1
    · exact ih _ v hv

/-- C8 (amended): `generateTrafficData` always returns exactly 10 values,
each at most 100 (baseline uniform on `[30,45)`, noise in `[-5,5)`, a 10%
anomaly chance adding a mild `[25,45)` or severe `[50,90)` offset, clamped
above at 100).  The code indeed has no lower clamp, but because the baseline
is at least 30 and the noise at least -5 (and anomalies only add), every
returned value is at least 25; no sequence of random draws can produce a
negative value. -/
theorem generateTrafficData_spec (rand : ℕ → ℚ)
    (hr : ∀ m, 0 ≤ rand m ∧ rand m < 1) :
    (generateTrafficData rand).length = 10 ∧
    ∀ v ∈ generateTrafficData rand, 25 ≤ v ∧ v ≤ 100 := by
  have hb0 : (30 : ℚ) ≤ 30 + rand 0 * 15 := by linarith [(hr 0).1]
  have hb1 : 30 + rand 0 * 15 < 45 := by linarith [(hr 0).2]
  simp only [generateTrafficData]
  exact ⟨genPoints_length rand _ 10 1,
    fun v hv => genPoints_mem_bounds rand _ hr hb0 hb1 10 1 v hv⟩

/-- C8 witness: the all-zero random stream satisfies the `[0,1)` contract and
yields 10 values within `[25,100]`. -/
theorem generateTrafficData_spec_witness :
    (∀ m : ℕ, 0 ≤ (fun _ : ℕ => (0 : ℚ)) m ∧ (fun _ : ℕ => (0 : ℚ)) m < 1) ∧
    ((generateTrafficData (fun _ => 0)).length = 10 ∧
     ∀ v ∈ generateTrafficData (fun _ => 0), 25 ≤ v ∧ v ≤ 100) :=
  ⟨fun _ => ⟨le_refl 0, by norm_num⟩,
   generateTrafficData_spec (fun _ => 0) (fun _ => ⟨le_refl 0, by norm_num⟩)⟩

/-- C8 counterexample: the claim that "for some sequence of random draws a
returned value goes slightly negative" is false: no valid random stream (all
draws in `[0,1)`) makes any returned value negative, since every value is at
least 25. -/
theorem generateTrafficData_never_negative :
    ¬ ∃ rand : ℕ → ℚ, (∀ m, 0 ≤ rand m ∧ rand m < 1) ∧
      ∃ v ∈ generateTrafficData rand, v < 0 := by
  rintro ⟨rand, hr, v, hv, hneg⟩
  have hb0 : (30 : ℚ) ≤ 30 + rand 0 * 15 := by linarith [(hr 0).1]
  have hb1 : 30 + rand 0 * 15 < 45 := by linarith [(hr 0).2]
  have hmem : v ∈ genPoints rand (30 + rand 0 * 15) 10 1 := by
    simpa [generateTrafficData] using hv
  have := genPoints_mem_bounds rand _ hr hb0 hb1 10 1 v hmem
  linarith [this.1]

/-- The JS array `['normal', 'warning', 'danger']` used both for argmax
labelling and for the fallback's `possibleStatuses`
(src/unnamed/part_000 lines 522 and 542). -/
def statusList : List Status := [.normal, .warning, .danger]

/-- Argmax of the 3-class prediction vector,
`values.indexOf(Math.max(...values))` (src/unnamed/part_000 line 521): the
first index attaining the maximum wins ties. -/
def argmaxStatus (v0 v1 v2 : ℚ) : Status :=
  if v1 ≤ v0 ∧ v2 ≤ v0 then .normal
  else if v2 ≤ v1 then .warning
  else .danger

/-- Environment of one `processDeviceImage` call: failure flags for the outer
`try` (canvas / `getImageData`) and the inner `try` (tensor pipeline), the
opaque image model's 3-class output, the two fallback random draws, and the
wall-clock string. -/
structure DeviceEnv where
  outerError : Bool
  tensorError : Bool
  v0 : ℚ
  v1 : ℚ
  v2 : ℚ
  r1 : ℚ
  r2 : ℚ
  ts : String

/-- Embedding of `processDeviceImage` (src/unnamed/part_000 lines 494-555).
Branches, in source order: null-model/null-canvas/not-ready guard (silent
`'normal'`); outer failure (Warning log, `'normal'`, state otherwise
untouched); tensor failure → stochastic fallback (Warning log; with
probability 0.1 move to one of the two other statuses chosen by a second
uniform draw, else hold; writes `deviceStatus`); otherwise the primary path:
argmax of the prediction vector, writes `deviceStatus`.  The out-of-range
default of `getD` is never reached when the draw is in `[0,1)`. -/
def processDeviceImage (env : DeviceEnv) (s : SysState) : Status × SysState :=
  if s.imageModel = false ∨ s.deviceCtx = false ∨ s.modelReady = false then (.normal, s)
  else if env.outerError = true then
    (.normal, addLogS env.ts "图像识别失败" .warning s)
  else if env.tensorError = true then
    let s1 := addLogS env.ts "张量操作失败，使用备用检测逻辑" .warning s
    let current := s1.deviceStatus
    let next :=
      if env.r1 < 0.1 then
        let others := statusList.filter (fun x => decide (x ≠ current))
        others.getD (⌊env.r2 * (others.length : ℚ)⌋).toNat .normal
      else current
    (next, { s1 with deviceStatus := next })
  else
    let st := argmaxStatus env.v0 env.v1 env.v2
    (st, { s with deviceStatus := st })

theorem floor_two_mul_toNat (r : ℚ) (h0 : 0 ≤ r) (h1 : r < 1) :
    (⌊r * 2⌋).toNat = if r < 0.5 then 0 else 1 := by
  split
  · rename_i h
    have h2 : (0.5 : ℚ) = 1 / 2 := by norm_num
    rw [h2] at h
    have hz : ⌊r * 2⌋ = 0 := by
      rw [Int.floor_eq_zero_iff, Set.mem_Ico]
      constructor
      · linarith
      · linarith
    rw [hz]
    rfl
  · rename_i h
    rw [not_lt] at h
    have h2 : (0.5 : ℚ) = 1 / 2 := by norm_num
    rw [h2] at h
    have hone : ⌊r * 2⌋ = 1 := by
      rw [Int.floor_eq_iff]
      push_cast
      constructor
      · linarith
      · linarith
    rw [hone]
    rfl

/-- C9: whenever the primary device-image path fails (tensor error, with the
guards passed), the fallback writes its result to the live `deviceStatus`
field; with `r1 ≥ 0.1` (probability 0.9) it keeps the current status, and
with `r1 < 0.1` (probability 0.1) it moves to a status drawn from the two
statuses other than the current one — the first of them when `r2 < 0.5`, the
second when `r2 ≥ 0.5` (uniform choice) — and the result is never equal to
the prior status. -/
theorem statusOther_spec (cur : Status) (r2 : ℚ) (h2a : 0 ≤ r2) (h2b : r2 < 1) :
    (statusList.filter (fun x => decide (x ≠ cur))).getD
        (⌊r2 * ((statusList.filter (fun x => decide (x ≠ cur))).length : ℚ)⌋).toNat
        .normal ≠ cur ∧
    (statusList.filter (fun x => decide (x ≠ cur))).getD
        (⌊r2 * ((statusList.filter (fun x => decide (x ≠ cur))).length : ℚ)⌋).toNat
        .normal ∈ statusList.filter (fun x => decide (x ≠ cur)) ∧
    (statusList.filter (fun x => decide (x ≠ cur))).getD
        (⌊r2 * ((statusList.filter (fun x => decide (x ≠ cur))).length : ℚ)⌋).toNat
        .normal =
      (statusList.filter (fun x => decide (x ≠ cur))).getD
        (if r2 < 0.5 then 0 else 1) .normal := by
  have hidx := floor_two_mul_toNat r2 h2a h2b
  cases cur
  · have hfil : statusList.filter (fun x => decide (x ≠ Status.normal)) =
        [Status.warning, Status.danger] := rfl
    rw [hfil, show ((([Status.warning, Status.danger] : List Status).length : ℕ) : ℚ) = 2
      from by norm_num, hidx]
    by_cases hr2 : r2 < 0.5
    · rw [if_pos hr2]
      exact ⟨by decide, by decide, rfl⟩
    · rw [if_neg hr2]
      exact ⟨by decide, by decide, rfl⟩
  · have hfil : statusList.filter (fun x => decide (x ≠ Status.warning)) =
        [Status.normal, Status.danger] := rfl
    rw [hfil, show ((([Status.normal, Status.danger] : List Status).length : ℕ) : ℚ) = 2
      from by norm_num, hidx]
    by_cases hr2 : r2 < 0.5
    · rw [if_pos hr2]
      exact ⟨by decide, by decide, rfl⟩
    · rw [if_neg hr2]
      exact ⟨by decide, by decide, rfl⟩
  · have hfil : statusList.filter (fun x => decide (x ≠ Status.danger)) =
        [Status.normal, Status.warning] := rfl
    rw [hfil, show ((([Status.normal, Status.warning] : List Status).length : ℕ) : ℚ) = 2
      from by norm_num, hidx]
    by_cases hr2 : r2 < 0.5
    · rw [if_pos hr2]
      exact ⟨by decide, by decide, rfl⟩
    · rw [if_neg hr2]
      exact ⟨by decide, by decide, rfl⟩

theorem processDeviceImage_fallback (env : DeviceEnv) (s : SysState)
    (hm : s.imageModel = true) (hc : s.deviceCtx = true) (hr : s.modelReady = true)
    (ho : env.outerError = false) (ht : env.tensorError = true)
    (h2a : 0 ≤ env.r2) (h2b : env.r2 < 1) :
    ((processDeviceImage env s).2.deviceStatus = (processDeviceImage env s).1) ∧
    (0.1 ≤ env.r1 → (processDeviceImage env s).1 = s.deviceStatus) ∧
    (env.r1 < 0.1 →
      (processDeviceImage env s).1 ≠ s.deviceStatus ∧
      (processDeviceImage env s).1 ∈
        statusList.filter (fun x => decide (x ≠ s.deviceStatus)) ∧
      (processDeviceImage env s).1 =
        (statusList.filter (fun x => decide (x ≠ s.deviceStatus))).getD
          (if env.r2 < 0.5 then 0 else 1) .normal) := by
  simp only [processDeviceImage, addLogS]
  rw [if_neg (by simp [hm, hc, hr]), if_neg (by simp [ho]), if_pos (by simp [ht])]
  refine ⟨rfl, ?_, ?_⟩
  · intro h
    rw [if_neg (not_lt.mpr h)]
  · intro h
    rw [if_pos h]
    exact statusOther_spec s.deviceStatus env.r2 h2a h2b

/-- Concrete device environment: tensor failure forced, both fallback draws
zero (so a transition fires and the first alternative status is chosen). -/
def devEnvW : DeviceEnv :=
  { outerError := false
    tensorError := true
    v0 := 0
    v1 := 0
    v2 := 0
    r1 := 0
    r2 := 0
    ts := "t" }

/-- C9 witness: from `deviceStatus = Normal` with the transition forced
(`r1 = 0 < 0.1`), the fallback's result differs from Normal and is written to
the state. -/
theorem processDeviceImage_fallback_witness :
    (processDeviceImage devEnvW readyState).1 ≠ readyState.deviceStatus ∧
    (processDeviceImage devEnvW readyState).2.deviceStatus =
      (processDeviceImage devEnvW readyState).1 := by
  have h := processDeviceImage_fallback devEnvW readyState rfl rfl rfl rfl rfl
    (by norm_num [devEnvW]) (by norm_num [devEnvW])
  exact ⟨(h.2.2 (by norm_num [devEnvW])).1, h.1⟩

/-- The contextual message pools of the tick's random log
(src/unnamed/part_000 lines 574-590), selected by the tick's traffic
status. -/
def tickMsgs : Status → List String
  | .normal => ["系统运行正常，所有组件工作稳定", "网络流量波动在正常范围内", "设备温度稳定在安全区间"]
  | .warning => ["流量高峰检测 - 持续监控中", "设备CPU使用率偏高", "检测到轻微网络延迟"]
  | .danger => ["警告! 检测到网络风暴!", "设备温度超限，请立即检查!", "严重: 网络连接中断"]

/-- The log type of the tick's random log (src/unnamed/part_000
lines 595-596). -/
def tickMsgType : Status → LogType
  | .normal => .info
  | .warning => .warning
  | .danger => .danger

/-- Environment of one `monitoringTask` tick: the two classifier
environments, the random stream for `generateTrafficData`, the draw deciding
whether a contextual log is emitted (`< 0.2`), the draw choosing the message,
and the wall-clock string for that log. -/
structure TickEnv where
  dev : DeviceEnv
  traffic : TrafficEnv
  rand : ℕ → ℚ
  logRand : ℚ
  msgRand : ℚ
  logTs : String

/-- Embedding of `monitoringTask` (src/unnamed/part_000 lines 560-606).
The tick is an `async` function whose two `await`s are suspension points at
which external code (for example `stopMonitoring`) may run; `f1` and `f2` are
the state transformations applied by such external code at those two points
(`id` when nothing intervenes).  Returns the final state, whether a follow-up
tick was scheduled (`setTimeout` guarded by the final `isMonitoring` check),
and how many tick bodies were executed (0 when the entry guard returns, 1
otherwise).  Canvas drawing has no state counterpart. -/
def monitoringTask (env : TickEnv) (f1 f2 : SysState → SysState) (s : SysState) :
    SysState × Bool × Nat :=
  if s.isMonitoring = false then (s, false, 0)
  else
    let sB := f1 (processDeviceImage env.dev s).2
    let r := detectTrafficAnomaly env.traffic
      ((generateTrafficData env.rand).map JsVal.num) sB
    let sD := f2 r.2
    let sE := if env.logRand < 0.2 then
        addLogS env.logTs
          ((tickMsgs r.1).getD (⌊env.msgRand * ((tickMsgs r.1).length : ℚ)⌋).toNat "")
          (tickMsgType r.1) sD
      else sD
    (sE, sE.isMonitoring, 1)

/-- Embedding of `startMonitoring` (src/unnamed/part_000 lines 611-619):
with the model ready and not already monitoring, set the flag, log an Info
entry and run one tick immediately (synchronously, before any interval
delay); with the model not ready, log a Danger entry and do nothing else;
otherwise (ready and already running) do nothing.  The returned triple is
the tick's: final state, whether a follow-up tick was scheduled, and how
many tick bodies ran during the call. -/
def startMonitoring (env : TickEnv) (f1 f2 : SysState → SysState) (ts : String)
    (s : SysState) : SysState × Bool × Nat :=
  if s.modelReady = true ∧ s.isMonitoring = false then
    monitoringTask env f1 f2
      (addLogS ts "启动监控任务..." .info { s with isMonitoring := true })
  else if s.modelReady = false then
    (addLogS ts "错误: 模型未初始化完成!" .danger s, false, 0)
  else (s, false, 0)

theorem addLogS_isMonitoring (ts m : String) (ty : LogType) (s : SysState) :
    (addLogS ts m ty s).isMonitoring = s.isMonitoring := rfl

theorem processDeviceImage_isMonitoring (env : DeviceEnv) (s : SysState) :
    (processDeviceImage env s).2.isMonitoring = s.isMonitoring := by
  simp only [processDeviceImage, addLogS]
  split
  · rfl
  · split
    · rfl
    · split
      · rfl
      · rfl

theorem detectTrafficAnomaly_isMonitoring (env : TrafficEnv) (d : List JsVal)
    (s : SysState) :
    (detectTrafficAnomaly env d s).2.isMonitoring = s.isMonitoring := by
  simp only [detectTrafficAnomaly, addLogS]
  split
  · rfl
  · split
    · rfl
    · split
      · rfl
      · split
        · split
          · rfl
          · split
            · rfl
            · rfl
        · split
          · rfl
          · split
            · rfl
            · rfl

/-- C5: once `running = false`, no further tick is scheduled.  First: a tick
that starts while `isMonitoring = false` returns immediately, leaving the
state untouched (no classification, no log) and scheduling nothing.  Second:
a tick schedules a follow-up only if the state it observes at its final
rescheduling check still has `isMonitoring = true`.  Third: if `stop()` runs
at the suspension point inside an in-flight tick (the `f2` interference
slot), the tick schedules no follow-up. -/
theorem monitoringTask_stop_spec (env : TickEnv) (f1 f2 : SysState → SysState)
    (ts : String) (s : SysState) :
    (s.isMonitoring = false → monitoringTask env f1 f2 s = (s, false, 0)) ∧
    ((monitoringTask env f1 f2 s).1.isMonitoring = false →
      (monitoringTask env f1 f2 s).2.1 = false) ∧
    (monitoringTask env f1 (stopMonitoring ts) s).2.1 = false := by
  refine ⟨?_, ?_, ?_⟩
  · intro h
    simp only [monitoringTask]
    rw [if_pos h]
  · by_cases hmon : s.isMonitoring = false
    · intro _
      simp only [monitoringTask]
      rw [if_pos hmon]
    · intro hfin
      simp only [monitoringTask] at hfin ⊢
      rw [if_neg hmon] at hfin ⊢
      exact hfin
  · by_cases hmon : s.isMonitoring = false
    · simp only [monitoringTask]
      rw [if_pos hmon]
    · simp only [monitoringTask]
      rw [if_neg hmon]
      dsimp only
      split
      · exact stopMonitoring_isMonitoring ts _
      · exact stopMonitoring_isMonitoring ts _

/-- Concrete tick environment for witnesses: no failures anywhere, no random
log, trivial model outputs. -/
def tickEnvW : TickEnv :=
  { dev :=
      { outerError := false
        tensorError := false
        v0 := 1
        v1 := 0
        v2 := 0
        r1 := 1
        r2 := 0
        ts := "t" }
    traffic :=
      { score := fun _ => 0
        tensorError := false
        ts := "t" }
    rand := fun _ => 0
    logRand := 1
    msgRand := 0
    logTs := "t" }

/-- C5 witness: a tick started with `isMonitoring = false` returns the state
untouched and schedules nothing; a tick in flight from the ready running
state that is stopped at its suspension point schedules no follow-up. -/
theorem monitoringTask_stop_spec_witness :
    monitoringTask tickEnvW id (stopMonitoring "t") initState =
      (initState, false, 0) ∧
    (monitoringTask tickEnvW id (stopMonitoring "t")
      { readyState with isMonitoring := true }).2.1 = false :=
  ⟨(monitoringTask_stop_spec tickEnvW id (stopMonitoring "t") "t" initState).1 rfl,
   (monitoringTask_stop_spec tickEnvW id (stopMonitoring "t") "t"
      { readyState with isMonitoring := true }).2.2⟩

/-- C4: `start()` with `ready = false` changes nothing except appending
exactly one Danger log entry — `running` keeps its value (so it stays false
if it was false), no tick body runs, and no error is raised (the function is
total).  `start()` with `ready = true` and `running = false` runs exactly one
tick body immediately (inside the call, before any interval delay), leaves
`running = true`, and equals the tick applied to the state with `running`
set and the Info start entry appended. -/
theorem startMonitoring_spec (env : TickEnv) (ts : String) (s : SysState) :
    (s.modelReady = false →
      startMonitoring env id id ts s =
        (addLogS ts "错误: 模型未初始化完成!" .danger s, false, 0)) ∧
    (s.modelReady = true → s.isMonitoring = false →
      (startMonitoring env id id ts s).2.2 = 1 ∧
      (startMonitoring env id id ts s).1.isMonitoring = true ∧
      startMonitoring env id id ts s =
        monitoringTask env id id
          (addLogS ts "启动监控任务..." .info { s with isMonitoring := true })) := by
  constructor
  · intro h
    simp only [startMonitoring]
    rw [if_neg (by simp [h]), if_pos h]
  · intro h1 h2
    have hcond : s.modelReady = true ∧ s.isMonitoring = false := ⟨h1, h2⟩
    have hstart : startMonitoring env id id ts s =
        monitoringTask env id id
          (addLogS ts "启动监控任务..." .info { s with isMonitoring := true }) := by
      simp only [startMonitoring]
      rw [if_pos hcond]
    refine ⟨?_, ?_, hstart⟩
    · rw [hstart]
      simp only [monitoringTask]
      rw [if_neg (by simp [addLogS])]
    · rw [hstart]
      simp only [monitoringTask]
      rw [if_neg (by simp [addLogS])]
      dsimp only [id_eq]
      split
      · rw [addLogS_isMonitoring, detectTrafficAnomaly_isMonitoring,
          processDeviceImage_isMonitoring]
        rfl
      · rw [detectTrafficAnomaly_isMonitoring, processDeviceImage_isMonitoring]
        rfl

/-- C4 witness: from the ready, non-running state, `start()` runs exactly one
immediate tick, ends with `running = true`, and equals the tick applied to
the started-and-logged state; from the initial (not ready) state it only
appends the Danger entry. -/
theorem startMonitoring_spec_witness :
    ((startMonitoring tickEnvW id id "t" readyState).2.2 = 1 ∧
     (startMonitoring tickEnvW id id "t" readyState).1.isMonitoring = true ∧
     startMonitoring tickEnvW id id "t" readyState =
       monitoringTask tickEnvW id id
         (addLogS "t" "启动监控任务..." .info
           { readyState with isMonitoring := true })) ∧
    startMonitoring tickEnvW id id "t" initState =
      (addLogS "t" "错误: 模型未初始化完成!" .danger initState, false, 0) :=
  ⟨(startMonitoring_spec tickEnvW "t" readyState).2 rfl rfl,
   (startMonitoring_spec tickEnvW "t" initState).1 rfl⟩

/-- Reactive state of the `src/index.js` component (lines 6-16): it has the
extra metric fields `memoryUsage`, `accuracy`, `anomalyDetectionRate` and
`processedDataPoints` that `part_000` lacks, and the same `selectedSpeed`
selector.  Model and canvas nullability as in `SysState`. -/
structure IdxState where
  deviceStatus : Status
  trafficStatus : Status
  modelReady : Bool
  isMonitoring : Bool
  logs : List LogEntry
  memoryUsage : ℚ
  accuracy : ℚ
  anomalyDetectionRate : ℚ
  processedDataPoints : Nat
  modelLoadProgress : Nat
  selectedSpeed : Nat
  trafficModel : Bool
  imageModel : Bool
deriving DecidableEq, Repr

/-- `addLog` of src/index.js lines 50-60 (same logic as `part_000`). -/
def addLogIdx (ts msg : String) (ty : LogType) (s : IdxState) : IdxState :=
  { s with logs := addLogEntry ts msg ty s.logs }

/-- Embedding of `stopMonitoring` from src/index.js lines 535-540. -/
def stopMonitoringIdx (ts : String) (s : IdxState) : IdxState :=
  if s.isMonitoring = true then
    addLogIdx ts "监控任务已停止" .info { s with isMonitoring := false }
  else s

/-- Embedding of `resetSystem` from src/index.js lines 543-575: stop, clear
readiness, statuses, counters, progress, logs and metrics, drop the model
references, then log a final entry (default Info type).  Unlike the
`part_000` variant, it does not touch `selectedSpeed`. -/
def resetSystemIdx (tsStop tsReset : String) (s : IdxState) : IdxState :=
  let s1 := stopMonitoringIdx tsStop s
  let s2 := { s1 with
    modelReady := false
    deviceStatus := Status.normal
    trafficStatus := Status.normal
    processedDataPoints := 0
    modelLoadProgress := 0
    logs := ([] : List LogEntry)
    memoryUsage := 0
    accuracy := 92
    anomalyDetectionRate := 88
    trafficModel := false
    imageModel := false }
  addLogIdx tsReset "系统已重置，所有状态已清除!" .info s2

/-- C10: the two `resetSystem` variants differ on the speed selector: the
`part_000` variant forces `selectedSpeed` back to 2000 regardless of its
prior value (the user's chosen interval does not survive a reset), while the
`src/index.js` variant leaves `selectedSpeed` unchanged. -/
theorem resetSystem_selectedSpeed (ts1 ts2 ts3 ts4 : String)
    (s : SysState) (t : IdxState) :
    (resetSystem ts1 ts2 s).selectedSpeed = 2000 ∧
    (resetSystemIdx ts3 ts4 t).selectedSpeed = t.selectedSpeed := by
  constructor
  · rfl
  · show (stopMonitoringIdx ts3 t).selectedSpeed = t.selectedSpeed
    unfold stopMonitoringIdx
    split
    · rfl
    · rfl
